import Mathlib

/-!
Shallow embedding of the DormHelper persistence layer (src/database.py) and of
the student-confirmation handler of src/main.py, together with theorems that
settle the claims C1-C10 about the natural-language specification.

Modelling conventions, justified against the source:
* The SQLite store is a pure `Store` value: one list of rows per table plus the
  per-table schema information that the code inspects at run time
  (`PRAGMA table_info`).  `AUTOINCREMENT` ids are modelled by a per-table
  next-id counter; `cur.lastrowid` is that counter's value at insert time.
* Machine integers do not occur: SQLite ids are unbounded (modelled as `Nat`),
  `sort_order` is an SQLite INTEGER modelled as `Int`.
* `sqlite3.connect` in `get_conn` never issues `PRAGMA foreign_keys = ON`, and
  SQLite leaves foreign-key enforcement OFF by default; hence the declared
  `REFERENCES students(id) ON DELETE CASCADE` on `neighbors.student_id` is
  inert and INSERTs into `neighbors` are never checked against `students`.
* Column presence: `init_db`'s `ensure_column` reads `PRAGMA table_info` and
  tests `column not in cols` with Python's case-sensitive string comparison,
  while SQLite treats column names case-insensitively; so an
  `ALTER TABLE .. ADD COLUMN` raises "duplicate column name" exactly when the
  store already holds the column under a differently-cased name.  Columns
  managed by the `ensure_column` checklist are therefore modelled with a
  three-valued `ColState` (absent / present with the exact name / present
  under a case-variant name); the remaining columns, which only ever arise
  with their exact lower-case names in historical revisions of this schema,
  are modelled as plain `Bool` presence flags.
* SQL `ORDER BY` is modelled as a stable sort (`List.insertionSort`) on the
  query's key; SQLite sorts NULL before any TEXT value in ascending order.
* SQL equality `=` is three-valued: a comparison with NULL is never true;
  `sqlEq` models `=` on nullable operands.
-/

namespace DormHelper

/-- State of one schema column as seen by the migration code: absent, present
under exactly the expected (lower-case) name, or present under a
differently-cased name (which Python's case-sensitive membership test misses
while SQLite's `ALTER TABLE` still rejects re-adding it). -/
inductive ColState where
  | absent
  | exact
  | caseVariant
deriving DecidableEq, Repr

/-- A column is detected by `PRAGMA table_info` introspection (Python-side,
case-sensitive) exactly when it is present under its exact name. -/
def ColState.detected : ColState → Bool
  | .exact => true
  | _ => false

/-- Row of the `news` table. -/
structure NewsRow where
  id : Nat
  title : String
  content : String
  created_at : Option String
deriving DecidableEq, Repr

/-- Row of the `requests` table; every column that any schema revision of the
table may carry, with NULL modelled as `none`.  `type_col` is the legacy
column named `type`. -/
structure RequestRow where
  id : Nat
  requester_name : Option String
  student_name : Option String
  request_type : Option String
  type_col : Option String
  description : Option String
  room : Option String
  status : Option String
  created_at : Option String
  updated_at : Option String
  created_date : Option String
deriving DecidableEq, Repr

/-- Row of the `handbook` table. -/
structure HandbookRow where
  id : Nat
  parent_id : Option Nat
  title : String
  content : Option String
  sort_order : Int
deriving DecidableEq, Repr

/-- Row of the `students` table. -/
structure StudentRow where
  id : Nat
  full_name : String
  room : Option String
  floor : Option String
  created_at : Option String
deriving DecidableEq, Repr

/-- Row of the `neighbors` table. -/
structure NeighborRow where
  id : Nat
  student_id : Nat
  name : String
  contact : Option String
deriving DecidableEq, Repr

/-- Schema of the `news` table: `created_at` is managed by the
`ensure_column` checklist. -/
structure NewsSchema where
  created_at : ColState
deriving DecidableEq, Repr

/-- Schema of the `requests` table: which columns are physically present.
`status`, `created_at`, `updated_at` are managed by the `ensure_column`
checklist and get the three-valued state; `type_col` is the legacy column
named `type`. -/
structure RequestsSchema where
  requester_name : Bool
  student_name : Bool
  request_type : Bool
  type_col : Bool
  description : Bool
  room : Bool
  created_date : Bool
  status : ColState
  created_at : ColState
  updated_at : ColState
deriving DecidableEq, Repr

/-- Schema of the `handbook` table: both `parent_id` and `sort_order` are
managed by the `ensure_column` checklist. -/
structure HandbookSchema where
  parent_id : ColState
  sort_order : ColState
deriving DecidableEq, Repr

/-- Schema of the `students` table: `created_at` is managed by the
`ensure_column` checklist. -/
structure StudentsSchema where
  created_at : ColState
deriving DecidableEq, Repr

/-- The whole SQLite store: rows, next AUTOINCREMENT id and run-time
inspectable schema per table.  `CREATE TABLE IF NOT EXISTS` makes all five
tables exist after any `init_db`, so tables are modelled as always present. -/
structure Store where
  newsSchema : NewsSchema
  news : List NewsRow
  newsNextId : Nat
  reqSchema : RequestsSchema
  requests : List RequestRow
  reqNextId : Nat
  hbSchema : HandbookSchema
  handbook : List HandbookRow
  hbNextId : Nat
  stSchema : StudentsSchema
  students : List StudentRow
  stNextId : Nat
  neighbors : List NeighborRow
  nbNextId : Nat
deriving DecidableEq, Repr

/-- Schema of `requests` as produced by the `CREATE TABLE` statement of
`init_db` on a fresh store. -/
def stdReqSchema : RequestsSchema :=
  { requester_name := true, student_name := false, request_type := true,
    type_col := false, description := true, room := true,
    created_date := false, status := .exact, created_at := .exact,
    updated_at := .exact }

/-- A fresh store: the five tables as created by the `CREATE TABLE`
statements, all empty, AUTOINCREMENT counters at 1. -/
def emptyStore : Store :=
  { newsSchema := ⟨.exact⟩, news := [], newsNextId := 1,
    reqSchema := stdReqSchema, requests := [], reqNextId := 1,
    hbSchema := ⟨.exact, .exact⟩, handbook := [], hbNextId := 1,
    stSchema := ⟨.exact⟩, students := [], stNextId := 1,
    neighbors := [], nbNextId := 1 }

/-- Test used by the backfill UPDATE statements:
`x IS NULL OR x = ''` on a nullable TEXT value. -/
def isNullOrEmpty : Option String → Bool
  | none => true
  | some s => s == ""

/-- SQL three-valued equality `=` on nullable TEXT operands: any comparison
with NULL is not true. -/
def sqlEq : Option String → Option String → Bool
  | some a, some b => a == b
  | _, _ => false

/-- Ascending SQLite comparison on a nullable TEXT key: NULL precedes every
TEXT value, TEXT values compare bytewise. -/
def optStrLe (a b : Option String) : Bool :=
  match a, b with
  | none, _ => true
  | some _, none => false
  | some x, some y => decide (x ≤ y)

/-! ### init_db: migration checklist (`ensure_column`), backfill, seeding -/

/-- One `ensure_column(table, column, definition)` call: `PRAGMA table_info`
followed by a case-sensitive membership test, then `ALTER TABLE .. ADD COLUMN`
when the test fails.  The `ALTER` raises (`duplicate column name`) exactly
when the column is already present under a case-variant name. -/
def ensureCol : ColState → Except Unit ColState
  | .absent => .ok .exact
  | .exact => .ok .exact
  | .caseVariant => .error ()

/-- A single step of the expected-columns checklist inside `init_db`. -/
def MigStep : Type := Store → Except Unit Store

/-- Checklist step `ensure_column("handbook", "parent_id", ..)`. -/
def migHandbookParentId : MigStep := fun s =>
  (ensureCol s.hbSchema.parent_id).map fun c =>
    { s with hbSchema := { s.hbSchema with parent_id := c } }

/-- Checklist step `ensure_column("handbook", "sort_order", ..)`. -/
def migHandbookSortOrder : MigStep := fun s =>
  (ensureCol s.hbSchema.sort_order).map fun c =>
    { s with hbSchema := { s.hbSchema with sort_order := c } }

/-- Checklist step `ensure_column("requests", "created_at", ..)`. -/
def migRequestsCreatedAt : MigStep := fun s =>
  (ensureCol s.reqSchema.created_at).map fun c =>
    { s with reqSchema := { s.reqSchema with created_at := c } }

/-- Checklist step `ensure_column("requests", "updated_at", ..)`. -/
def migRequestsUpdatedAt : MigStep := fun s =>
  (ensureCol s.reqSchema.updated_at).map fun c =>
    { s with reqSchema := { s.reqSchema with updated_at := c } }

/-- Checklist step `ensure_column("requests", "status", ..)`. -/
def migRequestsStatus : MigStep := fun s =>
  (ensureCol s.reqSchema.status).map fun c =>
    { s with reqSchema := { s.reqSchema with status := c } }

/-- Checklist step `ensure_column("news", "created_at", ..)`. -/
def migNewsCreatedAt : MigStep := fun s =>
  (ensureCol s.newsSchema.created_at).map fun c =>
    { s with newsSchema := { s.newsSchema with created_at := c } }

/-- Checklist step `ensure_column("students", "created_at", ..)`. -/
def migStudentsCreatedAt : MigStep := fun s =>
  (ensureCol s.stSchema.created_at).map fun c =>
    { s with stSchema := { s.stSchema with created_at := c } }

/-- The expected-columns checklist of `init_db`, in source order. -/
def migrationSteps : List MigStep :=
  [migHandbookParentId, migHandbookSortOrder, migRequestsCreatedAt,
   migRequestsUpdatedAt, migRequestsStatus, migNewsCreatedAt,
   migStudentsCreatedAt]

/-- Run steps sequentially, propagating the first failure. -/
def runSteps : List MigStep → Store → Except Unit Store
  | [], s => .ok s
  | st :: rest, s =>
    match st s with
    | .ok s' => runSteps rest s'
    | .error e => .error e

/-- Execution of the checklist as the source performs it: all steps inside
ONE `try/except`, so the first failing step aborts the remaining steps; the
exception is caught (a warning is printed) and startup continues with the
columns added so far. -/
def runChecklist : List MigStep → Store → Store
  | [], s => s
  | st :: rest, s =>
    match st s with
    | .ok s' => runChecklist rest s'
    | .error _ => s

/-- Execution of the checklist following the spec's words instead of the
source: each column-add step individually caught, so a failing step never
prevents the remaining steps from executing.  Used only to compare the spec's
described behaviour with the source's `runChecklist`. -/
def runChecklistSpec : List MigStep → Store → Store
  | [], s => s
  | st :: rest, s =>
    match st s with
    | .ok s' => runChecklistSpec rest s'
    | .error _ => runChecklistSpec rest s

/-- Row-level effect of
`UPDATE requests SET request_type = type WHERE request_type IS NULL OR
request_type = ''`, executed when the introspected column set has `type`. -/
def backfillRowType (sch : RequestsSchema) (r : RequestRow) : RequestRow :=
  if sch.type_col && isNullOrEmpty r.request_type then
    { r with request_type := r.type_col } else r

/-- Row-level effect of
`UPDATE requests SET requester_name = student_name WHERE requester_name IS
NULL OR requester_name = ''`, executed when the column set has
`student_name`. -/
def backfillRowStudentName (sch : RequestsSchema) (r : RequestRow) : RequestRow :=
  if sch.student_name && isNullOrEmpty r.requester_name then
    { r with requester_name := r.student_name } else r

/-- Row-level effect of
`UPDATE requests SET created_at = created_date WHERE (created_at IS NULL OR
created_at = '') AND created_date IS NOT NULL`, executed when the column set
has both `created_date` and `created_at`. -/
def backfillRowCreatedDate (sch : RequestsSchema) (r : RequestRow) : RequestRow :=
  if sch.created_date && sch.created_at.detected &&
      isNullOrEmpty r.created_at && r.created_date.isSome then
    { r with created_at := r.created_date } else r

/-- Row-level effect of the three backfill UPDATE statements in source order.
The three statements read and write pairwise disjoint columns, so running
them as one composed per-row function equals running them as three
whole-table UPDATEs. -/
def backfillRow (sch : RequestsSchema) (r : RequestRow) : RequestRow :=
  backfillRowCreatedDate sch (backfillRowStudentName sch (backfillRowType sch r))

/-- The two conditional `ALTER TABLE requests ADD COLUMN` statements at the
head of the backfill block: add `requester_name` and `request_type` when the
introspected column set lacks them. -/
def addReqCompatCols (sch : RequestsSchema) : RequestsSchema :=
  let sch := if !sch.requester_name then { sch with requester_name := true } else sch
  if !sch.request_type then { sch with request_type := true } else sch

/-- The requests-backfill block of `init_db`: add `requester_name` and
`request_type` when missing, re-introspect the column set, then copy the
legacy columns' values.  In the modelled schema domain none of these
statements can raise, so the enclosing `try/except` has no effect. -/
def backfillStep (s : Store) : Store :=
  let sch := addReqCompatCols s.reqSchema
  { s with reqSchema := sch, requests := s.requests.map (backfillRow sch) }

/-- The fixed sample announcements seeded into an empty `news` table. -/
def sampleNews : List (String × String) :=
  [("Добро пожаловать в DormHelper",
    "Это тестовое объявление. Здесь вы увидите новости и важные сообщения от администрации."),
   ("График уборки общежития",
    "Уважаемые жильцы! Напоминаем о графике уборки: этажи 1-2 — понедельник, 3-4 — вторник."),
   ("Плановое отключение воды",
    "В среду с 09:00 до 12:00 будет проводиться плановое отключение воды на всех этажах.")]

/-- One `INSERT INTO news (title, content, created_at) VALUES (?, ?, ?)`. -/
def insertNews (title content now : String) (s : Store) : Store :=
  { s with
    news := s.news ++ [⟨s.newsNextId, title, content, some now⟩],
    newsNextId := s.newsNextId + 1 }

/-- Seeding block of `init_db`: when `SELECT COUNT(*) FROM news` is 0, insert
the fixed samples in a loop, all stamped with the same current time. -/
def seedNews (now : String) (s : Store) : Store :=
  if s.news.length == 0 then
    sampleNews.foldl (fun s p => insertNews p.1 p.2 now s) s
  else s

/-- Embedding of `init_db`: `CREATE TABLE IF NOT EXISTS` (a no-op on the
modelled stores, where all five tables exist), index creation (no semantic
content at this level), the expected-columns checklist under its single
`try/except`, the requests backfill, and news seeding. -/
def init_db (now : String) (s : Store) : Store :=
  seedNews now (backfillStep (runChecklist migrationSteps s))

/-! ### Repository operations -/

/-- Column-name/value list built by `add_request` from the run-time column
set of `requests` (`PRAGMA table_info`), in source order, including the
literal `not in cols` re-checks of the source. -/
def addRequestCols (sch : RequestsSchema) (requester_name : Option String)
    (request_type description : String) (room : Option String)
    (now : String) : List (String × Option String) :=
  let cols : List (String × Option String) := []
  let cols := if sch.requester_name then
    cols ++ [("requester_name", requester_name)] else cols
  let cols := if sch.student_name && !(cols.any fun p => p.1 == "student_name") then
    cols ++ [("student_name", requester_name)] else cols
  let cols := if sch.request_type then
    cols ++ [("request_type", some request_type)] else cols
  let cols := if sch.type_col && !(cols.any fun p => p.1 == "type") then
    cols ++ [("type", some request_type)] else cols
  let cols := if sch.description then
    cols ++ [("description", some description)] else cols
  let cols := if sch.room then
    cols ++ [("room", room)] else cols
  let cols := if sch.status.detected then
    cols ++ [("status", some "open")] else cols
  let cols := if sch.created_at.detected then
    cols ++ [("created_at", some now)] else cols
  let cols := if sch.created_date && !(cols.any fun p => p.1 == "created_date") then
    cols ++ [("created_date", some now)] else cols
  cols

/-- Value an `INSERT INTO requests (cols..) VALUES (..)` leaves in a given
column: the supplied value when the column is named in the statement, NULL
otherwise. -/
def colVal (cols : List (String × Option String)) (c : String) : Option String :=
  match cols.lookup c with
  | some v => v
  | none => none

/-- Embedding of `add_request`: introspect the column set, build the
column/value list, raise `RuntimeError` when it is empty, otherwise insert
and return `cur.lastrowid`. -/
def add_request (requester_name : Option String) (request_type description : String)
    (room : Option String) (now : String) (s : Store) :
    Except String (Nat × Store) :=
  let cols := addRequestCols s.reqSchema requester_name request_type description room now
  if cols.isEmpty then
    .error "No compatible columns found in requests table"
  else
    let row : RequestRow :=
      { id := s.reqNextId,
        requester_name := colVal cols "requester_name",
        student_name := colVal cols "student_name",
        request_type := colVal cols "request_type",
        type_col := colVal cols "type",
        description := colVal cols "description",
        room := colVal cols "room",
        status := colVal cols "status",
        created_at := colVal cols "created_at",
        updated_at := none,
        created_date := colVal cols "created_date" }
    .ok (s.reqNextId,
      { s with requests := s.requests ++ [row], reqNextId := s.reqNextId + 1 })

/-- Embedding of `get_requests`:
`SELECT * FROM requests ORDER BY created_at DESC LIMIT ?`. -/
def get_requests (limit : Nat) (s : Store) : List RequestRow :=
  (s.requests.insertionSort fun a b => optStrLe b.created_at a.created_at).take limit

/-- Embedding of `clear_requests`: count, `DELETE FROM requests`, return the
count. -/
def clear_requests (s : Store) : Nat × Store :=
  (s.requests.length, { s with requests := [] })

/-- Embedding of `update_request_status`:
`UPDATE requests SET status = ?, updated_at = ? WHERE id = ?`, then
`cur.rowcount > 0`. -/
def update_request_status (request_id : Nat) (status now : String) (s : Store) :
    Bool × Store :=
  let matched := (s.requests.filter fun r => r.id == request_id).length
  (decide (0 < matched),
   { s with requests := s.requests.map fun r =>
      if r.id == request_id then
        { r with status := some status, updated_at := some now }
      else r })

/-- WHERE clause of `get_handbook_children`: `parent_id IS NULL` for a null
argument, SQL equality `parent_id = ?` otherwise. -/
def hbMatches (parent_id : Option Nat) (r : HandbookRow) : Bool :=
  match parent_id with
  | none => r.parent_id == none
  | some p => r.parent_id == some p

/-- The `ORDER BY sort_order, id` key order on handbook rows. -/
def hbLe (a b : HandbookRow) : Bool :=
  decide (a.sort_order < b.sort_order) ||
    (a.sort_order == b.sort_order && decide (a.id ≤ b.id))

/-- Embedding of `get_handbook_children`: filter by parent (NULL argument
selects the roots), order by `(sort_order, id)`. -/
def get_handbook_children (parent_id : Option Nat) (s : Store) : List HandbookRow :=
  (s.handbook.filter (hbMatches parent_id)).insertionSort fun a b => hbLe a b = true

/-- Embedding of `add_handbook_item`. -/
def add_handbook_item (title : String) (content : Option String)
    (parent_id : Option Nat) (sort_order : Int) (s : Store) : Nat × Store :=
  (s.hbNextId,
   { s with
     handbook := s.handbook ++ [⟨s.hbNextId, parent_id, title, content, sort_order⟩],
     hbNextId := s.hbNextId + 1 })

/-- Embedding of `add_student`. -/
def add_student (full_name : String) (room floor : Option String) (now : String)
    (s : Store) : Nat × Store :=
  (s.stNextId,
   { s with
     students := s.students ++ [⟨s.stNextId, full_name, room, floor, some now⟩],
     stNextId := s.stNextId + 1 })

/-- Embedding of `get_student_by_name_room`:
`SELECT * FROM students WHERE full_name = ? AND room = ? LIMIT 1`.
Both comparisons are SQL `=`; `full_name` is a NOT NULL column compared with
a string parameter, `room` is nullable, so a NULL on either side of the
`room = ?` comparison makes the row fail the WHERE clause. -/
def get_student_by_name_room (full_name : String) (room : Option String)
    (s : Store) : Option StudentRow :=
  s.students.find? fun st => st.full_name == full_name && sqlEq st.room room

/-- Embedding of `update_student`:
`UPDATE students SET full_name = ?, room = ?, floor = ? WHERE id = ?`, then
`cur.rowcount > 0`. -/
def update_student (student_id : Nat) (full_name : String)
    (room floor : Option String) (s : Store) : Bool × Store :=
  let matched := (s.students.filter fun st => st.id == student_id).length
  (decide (0 < matched),
   { s with students := s.students.map fun st =>
      if st.id == student_id then
        { st with full_name := full_name, room := room, floor := floor }
      else st })

/-- Embedding of `add_neighbor`:
`INSERT INTO neighbors (student_id, name, contact) VALUES (?, ?, ?)`.
The connection never enables `PRAGMA foreign_keys`, and SQLite's default
leaves foreign-key enforcement off, so the declared
`REFERENCES students(id) ON DELETE CASCADE` is not checked: the insert
succeeds whether or not `student_id` matches a student row. -/
def add_neighbor (student_id : Nat) (name : String) (contact : Option String)
    (s : Store) : Nat × Store :=
  (s.nbNextId,
   { s with
     neighbors := s.neighbors ++ [⟨s.nbNextId, student_id, name, contact⟩],
     nbNextId := s.nbNextId + 1 })

/-- Embedding of `get_neighbors`. -/
def get_neighbors (student_id : Nat) (s : Store) : List NeighborRow :=
  s.neighbors.filter fun n => n.student_id == student_id

/-! ### The confirm-info handler of src/main.py -/

/-- Whitespace recognised by the `.strip()` of the handler's text inputs. -/
def isSpaceChar (c : Char) : Bool :=
  c == ' ' || c == '\t' || c == '\n' || c == '\r'

/-- Drop leading whitespace characters. -/
def dropLeadingSpace : List Char → List Char
  | [] => []
  | c :: cs => if isSpaceChar c then dropLeadingSpace cs else c :: cs

/-- Python's `str.strip()` on the handler's text inputs (ASCII whitespace),
implemented structurally so it evaluates inside proofs. -/
def stripStr (s : String) : String :=
  String.mk ((dropLeadingSpace ((dropLeadingSpace s.data).reverse)).reverse)

/-- Outcome of `on_confirm_info_clicked` as far as the store is concerned. -/
inductive ConfirmResult where
  | incomplete
  | updated (ok : Bool)
  | inserted (sid : Nat)
deriving DecidableEq, Repr

/-- Embedding of `on_confirm_info_clicked` (src/main.py): strip the three
text fields, refuse empty name or room with a warning dialog and no store
access, otherwise look the student up by `(full_name, room)` and update the
found row or insert a new one. -/
def on_confirm_info_clicked (nameText roomText : String) (floorText : Option String)
    (now : String) (s : Store) : ConfirmResult × Store :=
  let full_name := stripStr nameText
  let room_text := stripStr roomText
  let floor_text := floorText.map stripStr
  if full_name == "" || room_text == "" then
    (.incomplete, s)
  else
    match get_student_by_name_room full_name (some room_text) s with
    | some existing =>
      let r := update_student existing.id full_name (some room_text) floor_text s
      (.updated r.1, r.2)
    | none =>
      let r := add_student full_name (some room_text) floor_text now s
      (.inserted r.1, r.2)

/-! ### The requests-table operations as a state machine -/

/-- Repository operations that touch the `requests` table.  The remaining
operations of the API (news, handbook, students, neighbors) never read or
write `requests`. -/
inductive RepoOp where
  | addReq (rn : Option String) (rt descr : String) (room : Option String)
      (now : String)
  | updStatus (rid : Nat) (status now : String)
  | clearReq

/-- Input constraint of the operation table: `updateStatus` is called with a
non-empty status. -/
def validOp : RepoOp → Prop
  | .updStatus _ status _ => status ≠ ""
  | _ => True

/-- Effect of one operation on the store; a raised guard error commits
nothing, leaving the store unchanged. -/
def applyOp (s : Store) : RepoOp → Store
  | .addReq rn rt descr room now =>
    match add_request rn rt descr room now s with
    | .ok p => p.2
    | .error _ => s
  | .updStatus rid status now => (update_request_status rid status now s).2
  | .clearReq => (clear_requests s).2

/-! ### Concrete stores and inputs used by witnesses and counterexamples -/

/-- The `requests` table exposes at least one of the columns `add_request`
can adapt to. -/
def anyCompatible (sch : RequestsSchema) : Bool :=
  sch.requester_name || sch.student_name || sch.request_type || sch.type_col ||
    sch.description || sch.room || sch.status.detected ||
    sch.created_at.detected || sch.created_date

/-- Store holding one student named Ivan whose `room` is NULL. -/
def ivanNullRoomStore : Store :=
  { emptyStore with
    students := [⟨1, "Ivan", none, none, some "T0"⟩], stNextId := 2 }

/-- Handbook rows used for the ordering example: one root and three siblings
under it whose `sort_order` values appear in the order [2, 0, 1]. -/
def hbDemoStore : Store :=
  { emptyStore with
    handbook := [⟨1, none, "root", none, 0⟩, ⟨2, some 1, "A", none, 2⟩,
                 ⟨3, some 1, "B", none, 0⟩, ⟨4, some 1, "C", none, 1⟩],
    hbNextId := 5 }

/-- Legacy store: a `requests` table carrying the old `type` column, one row
with its `request_type` still NULL. -/
def legacyTypeStore : Store :=
  { emptyStore with
    reqSchema := { stdReqSchema with type_col := true },
    requests := [⟨1, none, none, none, some "plumbing", some "leak", none,
      some "open", some "T1", none, none⟩],
    reqNextId := 2 }

/-- The row Ivan's submission inserts into a freshly initialized store. -/
def ivanRow (t1 : String) : RequestRow :=
  ⟨1, some "Ivan", none, some "plumbing", none, some "leak", some "204",
   some "open", some t1, none, none⟩

/-- The freshly initialized store after Ivan's submission. -/
def ivanStore (t0 t1 : String) : Store :=
  { init_db t0 emptyStore with requests := [ivanRow t1], reqNextId := 2 }

/-- Legacy store on which the expected-columns checklist fails midway: the
`requests` table carries `created_at` under a case-variant name (say
`Created_At`), which the case-sensitive membership test misses and whose
re-`ADD COLUMN` therefore raises, while `updated_at` and `status` are simply
missing. -/
def legacyChecklistStore : Store :=
  { emptyStore with
    reqSchema := { stdReqSchema with
      status := .absent, created_at := .caseVariant, updated_at := .absent } }

/-- A sample operation sequence: Ivan's submission, then closing it. -/
def demoOps : List RepoOp :=
  [.addReq (some "Ivan") "plumbing" "leak" (some "204") "T1",
   .updStatus 1 "closed" "T2"]

/-! ### Helper lemmas -/

theorem lookup_requester_name (sch : RequestsSchema) (rn : Option String)
    (rt d : String) (room : Option String) (now : String) :
    (addRequestCols sch rn rt d room now).lookup "requester_name" =
      (if sch.requester_name then some rn else none) := by
  simp only [addRequestCols, List.lookup_append,
    apply_ite (fun (l : List (String × Option String)) => l.lookup "requester_name"),
    apply_ite (fun (l : List (String × Option String)) => l.any fun p => p.1 == "student_name"),
    apply_ite (fun (l : List (String × Option String)) => l.any fun p => p.1 == "type"),
    apply_ite (fun (l : List (String × Option String)) => l.any fun p => p.1 == "created_date"),
    List.any_append, List.any_cons, List.any_nil, List.lookup_cons, List.lookup_nil]
  simp

theorem lookup_student_name (sch : RequestsSchema) (rn : Option String)
    (rt d : String) (room : Option String) (now : String) :
    (addRequestCols sch rn rt d room now).lookup "student_name" =
      (if sch.student_name then some rn else none) := by
  simp only [addRequestCols, List.lookup_append,
    apply_ite (fun (l : List (String × Option String)) => l.lookup "student_name"),
    apply_ite (fun (l : List (String × Option String)) => l.any fun p => p.1 == "student_name"),
    apply_ite (fun (l : List (String × Option String)) => l.any fun p => p.1 == "type"),
    apply_ite (fun (l : List (String × Option String)) => l.any fun p => p.1 == "created_date"),
    List.any_append, List.any_cons, List.any_nil, List.lookup_cons, List.lookup_nil]
  simp

theorem lookup_request_type (sch : RequestsSchema) (rn : Option String)
    (rt d : String) (room : Option String) (now : String) :
    (addRequestCols sch rn rt d room now).lookup "request_type" =
      (if sch.request_type then some (some rt) else none) := by
  simp only [addRequestCols, List.lookup_append,
    apply_ite (fun (l : List (String × Option String)) => l.lookup "request_type"),
    apply_ite (fun (l : List (String × Option String)) => l.any fun p => p.1 == "student_name"),
    apply_ite (fun (l : List (String × Option String)) => l.any fun p => p.1 == "type"),
    apply_ite (fun (l : List (String × Option String)) => l.any fun p => p.1 == "created_date"),
    List.any_append, List.any_cons, List.any_nil, List.lookup_cons, List.lookup_nil]
  simp

theorem lookup_type (sch : RequestsSchema) (rn : Option String)
    (rt d : String) (room : Option String) (now : String) :
    (addRequestCols sch rn rt d room now).lookup "type" =
      (if sch.type_col then some (some rt) else none) := by
  simp only [addRequestCols, List.lookup_append,
    apply_ite (fun (l : List (String × Option String)) => l.lookup "type"),
    apply_ite (fun (l : List (String × Option String)) => l.any fun p => p.1 == "student_name"),
    apply_ite (fun (l : List (String × Option String)) => l.any fun p => p.1 == "type"),
    apply_ite (fun (l : List (String × Option String)) => l.any fun p => p.1 == "created_date"),
    List.any_append, List.any_cons, List.any_nil, List.lookup_cons, List.lookup_nil]
  simp

theorem lookup_description (sch : RequestsSchema) (rn : Option String)
    (rt d : String) (room : Option String) (now : String) :
    (addRequestCols sch rn rt d room now).lookup "description" =
      (if sch.description then some (some d) else none) := by
  simp only [addRequestCols, List.lookup_append,
    apply_ite (fun (l : List (String × Option String)) => l.lookup "description"),
    apply_ite (fun (l : List (String × Option String)) => l.any fun p => p.1 == "student_name"),
    apply_ite (fun (l : List (String × Option String)) => l.any fun p => p.1 == "type"),
    apply_ite (fun (l : List (String × Option String)) => l.any fun p => p.1 == "created_date"),
    List.any_append, List.any_cons, List.any_nil, List.lookup_cons, List.lookup_nil]
  simp

theorem lookup_room (sch : RequestsSchema) (rn : Option String)
    (rt d : String) (room : Option String) (now : String) :
    (addRequestCols sch rn rt d room now).lookup "room" =
      (if sch.room then some room else none) := by
  simp only [addRequestCols, List.lookup_append,
    apply_ite (fun (l : List (String × Option String)) => l.lookup "room"),
    apply_ite (fun (l : List (String × Option String)) => l.any fun p => p.1 == "student_name"),
    apply_ite (fun (l : List (String × Option String)) => l.any fun p => p.1 == "type"),
    apply_ite (fun (l : List (String × Option String)) => l.any fun p => p.1 == "created_date"),
    List.any_append, List.any_cons, List.any_nil, List.lookup_cons, List.lookup_nil]
  simp

theorem lookup_status (sch : RequestsSchema) (rn : Option String)
    (rt d : String) (room : Option String) (now : String) :
    (addRequestCols sch rn rt d room now).lookup "status" =
      (if sch.status.detected then some (some "open") else none) := by
  simp only [addRequestCols, List.lookup_append,
    apply_ite (fun (l : List (String × Option String)) => l.lookup "status"),
    apply_ite (fun (l : List (String × Option String)) => l.any fun p => p.1 == "student_name"),
    apply_ite (fun (l : List (String × Option String)) => l.any fun p => p.1 == "type"),
    apply_ite (fun (l : List (String × Option String)) => l.any fun p => p.1 == "created_date"),
    List.any_append, List.any_cons, List.any_nil, List.lookup_cons, List.lookup_nil]
  simp

theorem lookup_created_at (sch : RequestsSchema) (rn : Option String)
    (rt d : String) (room : Option String) (now : String) :
    (addRequestCols sch rn rt d room now).lookup "created_at" =
      (if sch.created_at.detected then some (some now) else none) := by
  simp only [addRequestCols, List.lookup_append,
    apply_ite (fun (l : List (String × Option String)) => l.lookup "created_at"),
    apply_ite (fun (l : List (String × Option String)) => l.any fun p => p.1 == "student_name"),
    apply_ite (fun (l : List (String × Option String)) => l.any fun p => p.1 == "type"),
    apply_ite (fun (l : List (String × Option String)) => l.any fun p => p.1 == "created_date"),
    List.any_append, List.any_cons, List.any_nil, List.lookup_cons, List.lookup_nil]
  simp

theorem lookup_created_date (sch : RequestsSchema) (rn : Option String)
    (rt d : String) (room : Option String) (now : String) :
    (addRequestCols sch rn rt d room now).lookup "created_date" =
      (if sch.created_date then some (some now) else none) := by
  simp only [addRequestCols, List.lookup_append,
    apply_ite (fun (l : List (String × Option String)) => l.lookup "created_date"),
    apply_ite (fun (l : List (String × Option String)) => l.any fun p => p.1 == "student_name"),
    apply_ite (fun (l : List (String × Option String)) => l.any fun p => p.1 == "type"),
    apply_ite (fun (l : List (String × Option String)) => l.any fun p => p.1 == "created_date"),
    List.any_append, List.any_cons, List.any_nil, List.lookup_cons, List.lookup_nil]
  simp

theorem addRequestCols_nil_of_not_compatible (sch : RequestsSchema)
    (rn : Option String) (rt d : String) (room : Option String) (now : String)
    (h : anyCompatible sch = false) :
    addRequestCols sch rn rt d room now = [] := by
  simp only [anyCompatible, Bool.or_eq_false_iff] at h
  obtain ⟨⟨⟨⟨⟨⟨⟨⟨h1, h2⟩, h3⟩, h4⟩, h5⟩, h6⟩, h7⟩, h8⟩, h9⟩
    := h
  simp [addRequestCols, h1, h2, h3, h4, h5, h6, h7, h8, h9]

theorem addRequestCols_ne_nil_of_compatible (sch : RequestsSchema)
    (rn : Option String) (rt d : String) (room : Option String) (now : String)
    (h : anyCompatible sch = true) :
    addRequestCols sch rn rt d room now ≠ [] := by
  intro hnil
  simp only [anyCompatible, Bool.or_eq_true] at h
  rcases h with ((((((((h | h) | h) | h) | h) | h) | h) | h) | h)
  · have := lookup_requester_name sch rn rt d room now
    rw [hnil, h] at this
    simp at this
  · have := lookup_student_name sch rn rt d room now
    rw [hnil, h] at this
    simp at this
  · have := lookup_request_type sch rn rt d room now
    rw [hnil, h] at this
    simp at this
  · have := lookup_type sch rn rt d room now
    rw [hnil, h] at this
    simp at this
  · have := lookup_description sch rn rt d room now
    rw [hnil, h] at this
    simp at this
  · have := lookup_room sch rn rt d room now
    rw [hnil, h] at this
    simp at this
  · have := lookup_status sch rn rt d room now
    rw [hnil, h] at this
    simp at this
  · have := lookup_created_at sch rn rt d room now
    rw [hnil, h] at this
    simp at this
  · have := lookup_created_date sch rn rt d room now
    rw [hnil, h] at this
    simp at this

/-! ### Claim theorems -/

/-- C1.  The claim says `add_neighbor` fails whenever the given student id
does not reference an existing `students` row, and returns a new id only when
the student exists.  The code disagrees: `get_conn` never turns on SQLite
foreign-key enforcement, so the declared
`REFERENCES students(id) ON DELETE CASCADE` is inert and the insert succeeds
unconditionally.  On an initialized store with NO students at all,
`add_neighbor 1 "Bob"` returns the fresh id 1 and stores the dangling row. -/
theorem add_neighbor_ignores_missing_student :
    (init_db "T0" emptyStore).students = [] ∧
    (add_neighbor 1 "Bob" none (init_db "T0" emptyStore)).1 = 1 ∧
    (add_neighbor 1 "Bob" none (init_db "T0" emptyStore)).2.neighbors =
      [⟨1, 1, "Bob", none⟩] :=
  ⟨rfl, rfl, rfl⟩

/-- C5.  `update_request_status` returns true iff a request row with the
given id exists; on true, that row's status becomes the given value and its
`updated_at` becomes the non-null current timestamp, every other row is kept;
on false nothing changes. -/
theorem update_request_status_contract (s : Store) (rid : Nat) (st now : String) :
    ((update_request_status rid st now s).1 = true ↔ ∃ r ∈ s.requests, r.id = rid) ∧
    ((update_request_status rid st now s).1 = false →
      update_request_status rid st now s = (false, s)) ∧
    (∀ r ∈ s.requests, r.id = rid →
      { r with status := some st, updated_at := some now } ∈
        (update_request_status rid st now s).2.requests) ∧
    (∀ r' ∈ (update_request_status rid st now s).2.requests, r'.id = rid →
      r'.status = some st ∧ r'.updated_at = some now) ∧
    (∀ r ∈ s.requests, r.id ≠ rid → r ∈ (update_request_status rid st now s).2.requests) ∧
    (update_request_status rid st now s).2.requests.length = s.requests.length := by
  refine ⟨?_, ?_, ?_, ?_, ?_, ?_⟩
  · simp [update_request_status, List.length_pos, List.filter_eq_nil_iff]
  · intro hfalse
    have hno : ∀ r ∈ s.requests, ¬(r.id = rid) := by
      simpa [update_request_status, List.length_pos, List.filter_eq_nil_iff]
        using hfalse
    have hmap : (s.requests.map fun r =>
        if r.id == rid then { r with status := some st, updated_at := some now }
        else r) = s.requests := by
      have h2 : (s.requests.map fun r =>
          if r.id == rid then { r with status := some st, updated_at := some now }
          else r) = s.requests.map id := by
        refine List.map_congr_left fun r hr => ?_
        simp [hno r hr]
      simpa using h2
    have hfst : (update_request_status rid st now s).1 = false := hfalse
    simp only [update_request_status] at hfst ⊢
    rw [hmap]
    exact Prod.ext hfst rfl
  · intro r hr hid
    simp only [update_request_status, List.mem_map]
    exact ⟨r, hr, by simp [hid]⟩
  · intro r' hr' hid
    simp only [update_request_status] at hr'
    rcases List.mem_map.mp hr' with ⟨r, hr, rfl⟩
    by_cases h : r.id = rid
    · simp [h]
    · simp only [beq_iff_eq, if_neg h] at hid ⊢
      exact absurd hid h
  · intro r hr hne
    simp only [update_request_status, List.mem_map]
    exact ⟨r, hr, by simp [hne]⟩
  · simp [update_request_status]

/-- C10, counterexample.  The claim's first half is right (a NULL-room lookup
never matches, see the amended theorem), but its consequence is not: when the
room field is absent (blank), the confirm handler refuses the input BEFORE the
lookup and performs no insert at all — it does not "always insert rather than
update".  Concretely, with a stored Ivan row whose room is NULL and a blank
room input, the handler returns the incomplete-data outcome and leaves the
store untouched. -/
theorem confirm_absent_room_counterexample :
    (∃ st ∈ ivanNullRoomStore.students, st.full_name = "Ivan" ∧ st.room = none) ∧
    get_student_by_name_room "Ivan" none ivanNullRoomStore = none ∧
    (on_confirm_info_clicked "Ivan" "" none "T1" ivanNullRoomStore).1 = .incomplete ∧
    (on_confirm_info_clicked "Ivan" "" none "T1" ivanNullRoomStore).2.students =
      ivanNullRoomStore.students := by
  refine ⟨⟨⟨1, "Ivan", none, none, some "T0"⟩, ?_, rfl, rfl⟩, rfl, ?_, rfl⟩
  · simp [ivanNullRoomStore]
  · rfl

/-- C10, amended.  `get_student_by_name_room(full_name, None)` returns absent
for every store — even one holding a row with that name and NULL room —
because SQL `room = NULL` is never true; but the confirm handler guards
against a blank room before the lookup, so with an absent room it neither
inserts nor updates; only a call that reaches the lookup with a room no
stored row matches takes the insert branch. -/
theorem null_room_lookup_never_matches :
    (∀ (fn : String) (s : Store), get_student_by_name_room fn none s = none) ∧
    (∀ (nameText : String) (fl : Option String) (now : String) (s : Store),
      on_confirm_info_clicked nameText "" fl now s = (.incomplete, s)) ∧
    (∀ (nameText roomText : String) (fl : Option String) (now : String) (s : Store),
      stripStr nameText ≠ "" → stripStr roomText ≠ "" →
      get_student_by_name_room (stripStr nameText) (some (stripStr roomText)) s = none →
      (on_confirm_info_clicked nameText roomText fl now s).1 = .inserted s.stNextId) := by
  refine ⟨?_, ?_, ?_⟩
  · intro fn s
    simp only [get_student_by_name_room]
    rw [List.find?_eq_none]
    intro st _
    cases h : st.room <;> simp [sqlEq, h]
  · intro nameText fl now s
    simp [on_confirm_info_clicked, stripStr, dropLeadingSpace]
  · intro nameText roomText fl now s hname hroom hlookup
    simp only [on_confirm_info_clicked, hlookup]
    have h1 : (stripStr nameText == "") = false := by
      simpa using hname
    have h2 : (stripStr roomText == "") = false := by
      simpa using hroom
    simp [h1, h2, add_student]

theorem hbLe_total (a b : HandbookRow) : hbLe a b = true ∨ hbLe b a = true := by
  simp only [hbLe, Bool.or_eq_true, Bool.and_eq_true, decide_eq_true_eq, beq_iff_eq]
  omega

theorem hbLe_trans (a b c : HandbookRow) :
    hbLe a b = true → hbLe b c = true → hbLe a c = true := by
  simp only [hbLe, Bool.or_eq_true, Bool.and_eq_true, decide_eq_true_eq, beq_iff_eq]
  omega

/-- C9.  `get_handbook_children` returns exactly the rows whose `parent_id`
matches the argument (the NULL-parent rows for a null argument), as a
permutation of that filter, pairwise ordered by `(sort_order, id)`; and on
siblings with `sort_order` values [2, 0, 1] it returns them in sort_order
order [0, 1, 2]. -/
theorem handbook_children_ordered (pid : Option Nat) (s : Store) :
    (get_handbook_children pid s).Perm (s.handbook.filter (hbMatches pid)) ∧
    (∀ r, r ∈ get_handbook_children pid s ↔ r ∈ s.handbook ∧ hbMatches pid r = true) ∧
    List.Pairwise (fun a b => hbLe a b = true) (get_handbook_children pid s) ∧
    (get_handbook_children (some 1) hbDemoStore).map (fun r => (r.id, r.sort_order)) =
      [(3, 0), (4, 1), (2, 2)] := by
  refine ⟨List.perm_insertionSort _ _, ?_, ?_, ?_⟩
  · intro r
    simp [get_handbook_children, List.mem_insertionSort, List.mem_filter]
  · haveI : IsTotal HandbookRow (fun a b => hbLe a b = true) := ⟨hbLe_total⟩
    haveI : IsTrans HandbookRow (fun a b => hbLe a b = true) :=
      ⟨fun a b c => hbLe_trans a b c⟩
    exact List.sorted_insertionSort _ _
  · rfl

theorem addReqCompatCols_idem (sch : RequestsSchema) :
    addReqCompatCols (addReqCompatCols sch) = addReqCompatCols sch := by
  obtain ⟨b1, b2, b3, b4, b5, b6, b7, c1, c2, c3⟩ := sch
  cases b1 <;> cases b3 <;> rfl

theorem addReqCompatCols_type_col (sch : RequestsSchema) :
    (addReqCompatCols sch).type_col = sch.type_col := by
  obtain ⟨b1, b2, b3, b4, b5, b6, b7, c1, c2, c3⟩ := sch
  cases b1 <;> cases b3 <;> rfl

theorem backfillRow_request_type (sch : RequestsSchema) (r : RequestRow) :
    (backfillRow sch r).request_type =
      (if sch.type_col && isNullOrEmpty r.request_type then r.type_col
       else r.request_type) := by
  simp only [backfillRow, backfillRowType, backfillRowStudentName,
    backfillRowCreatedDate, apply_ite RequestRow.request_type, ite_self]

theorem backfillRow_requester_name (sch : RequestsSchema) (r : RequestRow) :
    (backfillRow sch r).requester_name =
      (if sch.student_name && isNullOrEmpty r.requester_name then r.student_name
       else r.requester_name) := by
  simp only [backfillRow, backfillRowType, backfillRowStudentName,
    backfillRowCreatedDate, apply_ite RequestRow.requester_name,
    apply_ite RequestRow.student_name, ite_self]

theorem backfillRow_created_at (sch : RequestsSchema) (r : RequestRow) :
    (backfillRow sch r).created_at =
      (if sch.created_date && sch.created_at.detected &&
          isNullOrEmpty r.created_at && r.created_date.isSome then r.created_date
       else r.created_at) := by
  simp only [backfillRow, backfillRowType, backfillRowStudentName,
    backfillRowCreatedDate, apply_ite RequestRow.created_at,
    apply_ite RequestRow.created_date, ite_self]

theorem backfillRow_id (sch : RequestsSchema) (r : RequestRow) :
    (backfillRow sch r).id = r.id := by
  simp only [backfillRow, backfillRowType, backfillRowStudentName,
    backfillRowCreatedDate, apply_ite RequestRow.id, ite_self]

theorem backfillRow_student_name (sch : RequestsSchema) (r : RequestRow) :
    (backfillRow sch r).student_name = r.student_name := by
  simp only [backfillRow, backfillRowType, backfillRowStudentName,
    backfillRowCreatedDate, apply_ite RequestRow.student_name, ite_self]

theorem backfillRow_type_col (sch : RequestsSchema) (r : RequestRow) :
    (backfillRow sch r).type_col = r.type_col := by
  simp only [backfillRow, backfillRowType, backfillRowStudentName,
    backfillRowCreatedDate, apply_ite RequestRow.type_col, ite_self]

theorem backfillRow_description (sch : RequestsSchema) (r : RequestRow) :
    (backfillRow sch r).description = r.description := by
  simp only [backfillRow, backfillRowType, backfillRowStudentName,
    backfillRowCreatedDate, apply_ite RequestRow.description, ite_self]

theorem backfillRow_room (sch : RequestsSchema) (r : RequestRow) :
    (backfillRow sch r).room = r.room := by
  simp only [backfillRow, backfillRowType, backfillRowStudentName,
    backfillRowCreatedDate, apply_ite RequestRow.room, ite_self]

theorem backfillRow_status (sch : RequestsSchema) (r : RequestRow) :
    (backfillRow sch r).status = r.status := by
  simp only [backfillRow, backfillRowType, backfillRowStudentName,
    backfillRowCreatedDate, apply_ite RequestRow.status, ite_self]

theorem backfillRow_updated_at (sch : RequestsSchema) (r : RequestRow) :
    (backfillRow sch r).updated_at = r.updated_at := by
  simp only [backfillRow, backfillRowType, backfillRowStudentName,
    backfillRowCreatedDate, apply_ite RequestRow.updated_at, ite_self]

theorem backfillRow_created_date (sch : RequestsSchema) (r : RequestRow) :
    (backfillRow sch r).created_date = r.created_date := by
  simp only [backfillRow, backfillRowType, backfillRowStudentName,
    backfillRowCreatedDate, apply_ite RequestRow.created_date, ite_self]

theorem backfillRow_idem (sch : RequestsSchema) (r : RequestRow) :
    backfillRow sch (backfillRow sch r) = backfillRow sch r := by
  have hext : ∀ a b : RequestRow, a.id = b.id → a.requester_name = b.requester_name →
      a.student_name = b.student_name → a.request_type = b.request_type →
      a.type_col = b.type_col → a.description = b.description → a.room = b.room →
      a.status = b.status → a.created_at = b.created_at →
      a.updated_at = b.updated_at → a.created_date = b.created_date → a = b := by
    intro a b h1 h2 h3 h4 h5 h6 h7 h8 h9 h10 h11
    cases a
    cases b
    simp_all
  refine hext _ _ ?_ ?_ ?_ ?_ ?_ ?_ ?_ ?_ ?_ ?_ ?_
  · simp only [backfillRow_id]
  · simp only [backfillRow_requester_name, backfillRow_student_name]
    split_ifs <;> simp_all
  · simp only [backfillRow_student_name]
  · simp only [backfillRow_request_type, backfillRow_type_col]
    split_ifs <;> simp_all
  · simp only [backfillRow_type_col]
  · simp only [backfillRow_description]
  · simp only [backfillRow_room]
  · simp only [backfillRow_status]
  · simp only [backfillRow_created_at, backfillRow_created_date]
    split_ifs <;> simp_all
  · simp only [backfillRow_updated_at]
  · simp only [backfillRow_created_date]

/-- C3.  Legacy backfill law, on every store whose `requests` table has the
legacy `type` column: pairing each pre-backfill row with its post-backfill
row, a NULL-or-empty `request_type` becomes the row's `type` value, a
non-empty `request_type` is never overwritten, and running the backfill block
a second time changes nothing. -/
theorem backfill_type_law (s : Store) (h : s.reqSchema.type_col = true) :
    (∀ p ∈ s.requests.zip (backfillStep s).requests,
      (isNullOrEmpty p.1.request_type = true → p.2.request_type = p.1.type_col) ∧
      (isNullOrEmpty p.1.request_type = false →
        p.2.request_type = p.1.request_type)) ∧
    backfillStep (backfillStep s) = backfillStep s := by
  constructor
  · intro p hp
    have hzip : s.requests.zip (backfillStep s).requests =
        s.requests.map fun r => (r, backfillRow (addReqCompatCols s.reqSchema) r) := by
      simp only [backfillStep]
      rw [show s.requests.zip (s.requests.map (backfillRow (addReqCompatCols s.reqSchema))) =
        (s.requests.map id).zip (s.requests.map (backfillRow (addReqCompatCols s.reqSchema)))
        by rw [List.map_id], List.zip_map']
      rfl
    rw [hzip] at hp
    rcases List.mem_map.mp hp with ⟨r, _, rfl⟩
    have htc : (addReqCompatCols s.reqSchema).type_col = true := by
      rw [addReqCompatCols_type_col]
      exact h
    rw [backfillRow_request_type, htc]
    constructor
    · intro he
      simp [he]
    · intro he
      simp [he]
  · simp only [backfillStep, addReqCompatCols_idem, List.map_map]
    congr 1
    exact List.map_congr_left fun r _ => backfillRow_idem _ r

/-- Witness for C3 at the concrete legacy store. -/
theorem backfill_type_law_witness :
    legacyTypeStore.reqSchema.type_col = true ∧
    ((∀ p ∈ legacyTypeStore.requests.zip (backfillStep legacyTypeStore).requests,
      (isNullOrEmpty p.1.request_type = true → p.2.request_type = p.1.type_col) ∧
      (isNullOrEmpty p.1.request_type = false →
        p.2.request_type = p.1.request_type)) ∧
    backfillStep (backfillStep legacyTypeStore) = backfillStep legacyTypeStore) :=
  ⟨rfl, backfill_type_law legacyTypeStore rfl⟩

/-- C8.  Request round trip on a freshly initialized store: submitting Ivan's
plumbing request and listing with limit 10 returns exactly one row, with
status open, a NULL `updated_at`, and every submitted field intact. -/
theorem request_round_trip (t0 t1 : String) :
    ∃ s', add_request (some "Ivan") "plumbing" "leak" (some "204") t1
        (init_db t0 emptyStore) = .ok (1, s') ∧
      get_requests 10 s' = [ivanRow t1] ∧
      (∀ r ∈ get_requests 10 s', r.status = some "open" ∧ r.updated_at = none ∧
        r.requester_name = some "Ivan" ∧ r.request_type = some "plumbing" ∧
        r.description = some "leak" ∧ r.room = some "204") := by
  refine ⟨ivanStore t0 t1, rfl, rfl, ?_⟩
  intro r hr
  have hrow : r = ivanRow t1 := by
    simpa [get_requests, ivanStore] using hr
  subst hrow
  exact ⟨rfl, rfl, rfl, rfl, rfl, rfl⟩

/-- C7.  `init_db` on a fresh store seeds exactly the three fixed sample
announcements, and every further call is the identity on the resulting store:
same schema, same news count, same rows. -/
theorem init_db_idempotent (now : String) :
    (init_db now emptyStore).news.map (fun n => (n.title, n.content)) = sampleNews ∧
    (init_db now emptyStore).news.length = 3 ∧
    (∀ now', init_db now' (init_db now emptyStore) = init_db now emptyStore) ∧
    (∀ (now' : String) (k : Nat),
      (init_db now')^[k] (init_db now emptyStore) = init_db now emptyStore) := by
  refine ⟨rfl, rfl, fun now' => rfl, ?_⟩
  intro now' k
  induction k with
  | zero => rfl
  | succ k ih =>
    rw [Function.iterate_succ_apply', ih]
    exact rfl

/-- C2, counterexample.  The claim says a failing column-add step still lets
every remaining checklist step execute, i.e. that the source checklist
behaves like the per-step-catch `runChecklistSpec`.  It does not: the source
wraps the WHOLE checklist in one try/except, so on `legacyChecklistStore` the
failing `requests.created_at` step aborts the remaining four steps
(`updated_at` stays absent), while the per-step reading would still add
them. -/
theorem migration_checklist_counterexample :
    (runChecklist migrationSteps legacyChecklistStore).reqSchema.updated_at =
      .absent ∧
    (runChecklistSpec migrationSteps legacyChecklistStore).reqSchema.updated_at =
      .exact ∧
    runChecklist migrationSteps legacyChecklistStore ≠
      runChecklistSpec migrationSteps legacyChecklistStore := by
  refine ⟨rfl, rfl, ?_⟩
  decide

/-- C2, amended.  A failure in a column-add step is caught (and logged), and
the rest of startup — backfill and seeding — still proceeds; but the
remaining column-add steps of the checklist are skipped, because the whole
checklist sits in a single try/except: after a successful prefix `pre` and a
failing step, the checklist's result is exactly the state the prefix
produced, with `post` never executed; `init_db` on the failing legacy store
nevertheless still seeds the three news rows. -/
theorem migration_checklist_single_catch (pre : List MigStep) (failing : MigStep)
    (post : List MigStep) (s s' : Store)
    (hpre : runSteps pre s = .ok s') (hfail : failing s' = .error ()) :
    runChecklist (pre ++ failing :: post) s = s' ∧
    (∀ now, (init_db now legacyChecklistStore).news.length = 3 ∧
      (init_db now legacyChecklistStore).reqSchema.updated_at = .absent ∧
      (init_db now legacyChecklistStore).reqSchema.status = .absent) := by
  constructor
  · induction pre generalizing s with
    | nil =>
      simp only [runSteps] at hpre
      injection hpre with h
      subst h
      simp only [List.nil_append, runChecklist, hfail]
    | cons p rest ih =>
      simp only [runSteps] at hpre
      cases hp : p s with
      | ok s1 =>
        rw [hp] at hpre
        simp only [List.cons_append, runChecklist, hp]
        exact ih s1 hpre
      | error e =>
        rw [hp] at hpre
        cases hpre
  · intro now
    exact ⟨rfl, rfl, rfl⟩

/-- Witness for C2's amended theorem: the concrete checklist of
`migrationSteps`, split around its failing third step on
`legacyChecklistStore`. -/
theorem migration_checklist_single_catch_witness :
    runChecklist ([migHandbookParentId, migHandbookSortOrder] ++
        migRequestsCreatedAt :: [migRequestsUpdatedAt, migRequestsStatus,
          migNewsCreatedAt, migStudentsCreatedAt]) legacyChecklistStore =
      legacyChecklistStore ∧
    (init_db "T0" legacyChecklistStore).news.length = 3 :=
  ⟨(migration_checklist_single_catch [migHandbookParentId, migHandbookSortOrder]
      migRequestsCreatedAt
      [migRequestsUpdatedAt, migRequestsStatus, migNewsCreatedAt,
        migStudentsCreatedAt]
      legacyChecklistStore legacyChecklistStore rfl rfl).1,
   ((migration_checklist_single_catch [migHandbookParentId, migHandbookSortOrder]
      migRequestsCreatedAt
      [migRequestsUpdatedAt, migRequestsStatus, migNewsCreatedAt,
        migStudentsCreatedAt]
      legacyChecklistStore legacyChecklistStore rfl rfl).2 "T0").1⟩

theorem colVal_requester_name (sch : RequestsSchema) (rn : Option String)
    (rt d : String) (room : Option String) (now : String) :
    colVal (addRequestCols sch rn rt d room now) "requester_name" =
      (if sch.requester_name then rn else none) := by
  simp only [colVal, lookup_requester_name]
  split_ifs <;> rfl

theorem colVal_student_name (sch : RequestsSchema) (rn : Option String)
    (rt d : String) (room : Option String) (now : String) :
    colVal (addRequestCols sch rn rt d room now) "student_name" =
      (if sch.student_name then rn else none) := by
  simp only [colVal, lookup_student_name]
  split_ifs <;> rfl

theorem colVal_request_type (sch : RequestsSchema) (rn : Option String)
    (rt d : String) (room : Option String) (now : String) :
    colVal (addRequestCols sch rn rt d room now) "request_type" =
      (if sch.request_type then some rt else none) := by
  simp only [colVal, lookup_request_type]
  split_ifs <;> rfl

theorem colVal_type (sch : RequestsSchema) (rn : Option String)
    (rt d : String) (room : Option String) (now : String) :
    colVal (addRequestCols sch rn rt d room now) "type" =
      (if sch.type_col then some rt else none) := by
  simp only [colVal, lookup_type]
  split_ifs <;> rfl

theorem colVal_description (sch : RequestsSchema) (rn : Option String)
    (rt d : String) (room : Option String) (now : String) :
    colVal (addRequestCols sch rn rt d room now) "description" =
      (if sch.description then some d else none) := by
  simp only [colVal, lookup_description]
  split_ifs <;> rfl

theorem colVal_room (sch : RequestsSchema) (rn : Option String)
    (rt d : String) (room : Option String) (now : String) :
    colVal (addRequestCols sch rn rt d room now) "room" =
      (if sch.room then room else none) := by
  simp only [colVal, lookup_room]
  split_ifs <;> rfl

theorem colVal_status (sch : RequestsSchema) (rn : Option String)
    (rt d : String) (room : Option String) (now : String) :
    colVal (addRequestCols sch rn rt d room now) "status" =
      (if sch.status.detected then some "open" else none) := by
  simp only [colVal, lookup_status]
  split_ifs <;> rfl

theorem colVal_created_at (sch : RequestsSchema) (rn : Option String)
    (rt d : String) (room : Option String) (now : String) :
    colVal (addRequestCols sch rn rt d room now) "created_at" =
      (if sch.created_at.detected then some now else none) := by
  simp only [colVal, lookup_created_at]
  split_ifs <;> rfl

theorem colVal_created_date (sch : RequestsSchema) (rn : Option String)
    (rt d : String) (room : Option String) (now : String) :
    colVal (addRequestCols sch rn rt d room now) "created_date" =
      (if sch.created_date then some now else none) := by
  simp only [colVal, lookup_created_date]
  split_ifs <;> rfl

/-- C4.  `add_request` raises its guard error exactly when the `requests`
table exposes none of the compatible columns; otherwise it inserts one row in
which every physically present compatible column — old and new names alike —
carries the same logical value (absent columns stay NULL), and it returns
the fresh row id. -/
theorem add_request_adapts (s : Store) (rn : Option String) (rt d : String)
    (room : Option String) (now : String) :
    ((∃ e, add_request rn rt d room now s = .error e) ↔
      anyCompatible s.reqSchema = false) ∧
    (anyCompatible s.reqSchema = true →
      ∃ s', add_request rn rt d room now s = .ok (s.reqNextId, s') ∧
        s'.requests = s.requests ++
          [{ id := s.reqNextId,
             requester_name := if s.reqSchema.requester_name then rn else none,
             student_name := if s.reqSchema.student_name then rn else none,
             request_type := if s.reqSchema.request_type then some rt else none,
             type_col := if s.reqSchema.type_col then some rt else none,
             description := if s.reqSchema.description then some d else none,
             room := if s.reqSchema.room then room else none,
             status := if s.reqSchema.status.detected then some "open" else none,
             created_at := if s.reqSchema.created_at.detected then some now else none,
             updated_at := none,
             created_date := if s.reqSchema.created_date then some now else none }] ∧
        s'.reqNextId = s.reqNextId + 1) := by
  constructor
  · constructor
    · rintro ⟨e, he⟩
      cases hany : anyCompatible s.reqSchema with
      | false => rfl
      | true =>
        exfalso
        have hne := addRequestCols_ne_nil_of_compatible s.reqSchema rn rt d room now hany
        have hc : (addRequestCols s.reqSchema rn rt d room now).isEmpty = false := by
          cases hl : addRequestCols s.reqSchema rn rt d room now
          · exact absurd hl hne
          · rfl
        simp only [add_request, hc] at he
        cases he
    · intro hfalse
      refine ⟨"No compatible columns found in requests table", ?_⟩
      have hnil := addRequestCols_nil_of_not_compatible s.reqSchema rn rt d room now hfalse
      simp only [add_request, hnil, List.isEmpty_nil, if_true]
  · intro htrue
    have hne := addRequestCols_ne_nil_of_compatible s.reqSchema rn rt d room now htrue
    have hc : (addRequestCols s.reqSchema rn rt d room now).isEmpty = false := by
      cases hl : addRequestCols s.reqSchema rn rt d room now
      · exact absurd hl hne
      · rfl
    refine ⟨{ s with
        requests := s.requests ++
          [{ id := s.reqNextId,
             requester_name := colVal (addRequestCols s.reqSchema rn rt d room now) "requester_name",
             student_name := colVal (addRequestCols s.reqSchema rn rt d room now) "student_name",
             request_type := colVal (addRequestCols s.reqSchema rn rt d room now) "request_type",
             type_col := colVal (addRequestCols s.reqSchema rn rt d room now) "type",
             description := colVal (addRequestCols s.reqSchema rn rt d room now) "description",
             room := colVal (addRequestCols s.reqSchema rn rt d room now) "room",
             status := colVal (addRequestCols s.reqSchema rn rt d room now) "status",
             created_at := colVal (addRequestCols s.reqSchema rn rt d room now) "created_at",
             updated_at := none,
             created_date := colVal (addRequestCols s.reqSchema rn rt d room now) "created_date" }],
        reqNextId := s.reqNextId + 1 }, ?_, ?_, rfl⟩
    · simp only [add_request, hc]
      rfl
    · simp only [colVal_requester_name, colVal_student_name, colVal_request_type,
        colVal_type, colVal_description, colVal_room, colVal_status,
        colVal_created_at, colVal_created_date]

theorem applyOp_step (s : Store) (op : RepoOp) (hstd : s.reqSchema = stdReqSchema)
    (hv : validOp op) (hinv : ∀ r ∈ s.requests, isNullOrEmpty r.status = false) :
    (applyOp s op).reqSchema = stdReqSchema ∧
    (∀ r ∈ (applyOp s op).requests, isNullOrEmpty r.status = false) := by
  cases op with
  | addReq rn rt descr room nw =>
    simp only [applyOp]
    cases hcase : add_request rn rt descr room nw s with
    | error e => exact ⟨hstd, hinv⟩
    | ok p =>
      simp only [add_request] at hcase
      by_cases hc : (addRequestCols s.reqSchema rn rt descr room nw).isEmpty = true
      · rw [if_pos hc] at hcase
        cases hcase
      · rw [if_neg hc] at hcase
        injection hcase with h2
        subst h2
        refine ⟨hstd, ?_⟩
        intro r hr
        simp only [List.mem_append, List.mem_singleton] at hr
        rcases hr with hr | rfl
        · exact hinv r hr
        · simp only [colVal_status, hstd]
          rfl
  | updStatus rid status nw =>
    refine ⟨hstd, ?_⟩
    intro r hr
    simp only [applyOp, update_request_status] at hr
    rcases List.mem_map.mp hr with ⟨r0, hr0, rfl⟩
    have hst : status ≠ "" := hv
    by_cases h : r0.id = rid
    · simp [h, isNullOrEmpty, hst]
    · simp only [beq_iff_eq, if_neg h]
      exact hinv r0 hr0
  | clearReq =>
    refine ⟨hstd, ?_⟩
    intro r hr
    simp [applyOp, clear_requests] at hr

/-- C6.  On a store produced by `init_db` from a fresh store, after any
sequence of requests-table operations whose `updateStatus` calls carry a
non-empty status, every row of the `requests` table has a non-empty status
(rows created by `add_request` get the status `open`). -/
theorem status_never_empty (now0 : String) (ops : List RepoOp)
    (hv : ∀ op ∈ ops, validOp op) :
    ∀ r ∈ (ops.foldl applyOp (init_db now0 emptyStore)).requests,
      isNullOrEmpty r.status = false := by
  have main : ∀ (l : List RepoOp) (s : Store), (∀ op ∈ l, validOp op) →
      s.reqSchema = stdReqSchema →
      (∀ r ∈ s.requests, isNullOrEmpty r.status = false) →
      ∀ r ∈ (l.foldl applyOp s).requests, isNullOrEmpty r.status = false := by
    intro l
    induction l with
    | nil =>
      intro s _ _ hinv
      simpa using hinv
    | cons op rest ih =>
      intro s hv2 hstd hinv
      simp only [List.foldl_cons]
      have hstep := applyOp_step s op hstd (hv2 op (List.mem_cons_self _ _)) hinv
      exact ih (applyOp s op) (fun o ho => hv2 o (List.mem_cons_of_mem _ ho))
        hstep.1 hstep.2
  apply main ops (init_db now0 emptyStore) hv rfl
  intro r hr
  rw [show (init_db now0 emptyStore).requests = [] from rfl] at hr
  cases hr

/-- Witness for C6 on the sample operation sequence. -/
theorem status_never_empty_witness :
    isNullOrEmpty (RequestRow.status ⟨1, some "Ivan", none, some "plumbing",
      none, some "leak", some "204", some "closed", some "T1", some "T2",
      none⟩) = false :=
  status_never_empty "T0" demoOps
    (by
      intro op hop
      simp only [demoOps, List.mem_cons, List.not_mem_nil, or_false] at hop
      rcases hop with rfl | rfl
      · trivial
      · show ("closed" : String) ≠ ""
        decide)
    ⟨1, some "Ivan", none, some "plumbing", none, some "leak", some "204",
      some "closed", some "T1", some "T2", none⟩
    (by
      rw [show (demoOps.foldl applyOp (init_db "T0" emptyStore)).requests =
        [⟨1, some "Ivan", none, some "plumbing", none, some "leak", some "204",
          some "closed", some "T1", some "T2", none⟩] from rfl]
      exact List.mem_singleton_self _)

end DormHelper
